import Mathlib

/-!
Shallow embedding of the expression-level type inference engine of the
`sql-type` SQL static analyzer (files `type_.rs` and `type_expression.rs`),
together with proofs about identifier resolution, `IN`/`IS`/`CAST`/`COUNT`
typing, the `IS NOT NULL` narrowing side effect, and the textual rendering
of types.

The ambient `Typer` context of the Rust code is embedded by explicit state
passing: `type_expression` receives the list of in-scope reference types and
returns the (possibly narrowed) reference types, the list of diagnostics the
call appended to the issue sink, and the computed `FullType`.

External collaborators that live outside the two embedded source files
(`matched_type`, `type_select`, `parse_column`, `resolve_kleene_identifier`,
the `issue_todo` marker) are modelled from the specification at their
documented boundary; each such definition carries a doc comment saying so.
The expression forms whose typing is delegated wholesale to external sibling
typers (`Binary`, `Unary`, `Function`, `Exists`) are outside the scope of the
embedding.
-/

set_option maxRecDepth 4096

/-- A source location, as in `sql_parse::Span` (a byte range). -/
structure Span where
  start : Nat
  stop : Nat
deriving DecidableEq, Repr

/-- `BaseType` from `type_.rs`: the coarse compatibility category. -/
inductive BaseType where
  | Any
  | Bool
  | Bytes
  | Date
  | DateTime
  | Float
  | Integer
  | String
  | Time
  | TimeStamp
deriving DecidableEq, Repr

/-- Shorthand for `String`, usable inside namespaces that declare a
constructor called `String`. -/
abbrev Str := String

/-- The `Display` rendering of `BaseType` from `type_.rs`. -/
def BaseType.fmt : BaseType → Str
  | .Any => "any"
  | .Bool => "bool"
  | .Bytes => "bytes"
  | .Date => "date"
  | .DateTime => "datetime"
  | .Float => "float"
  | .Integer => "integer"
  | .String => "string"
  | .Time => "time"
  | .TimeStamp => "timestamp"

/-- `Type` from `type_.rs`.  The `RefOrVal`/`Cow` sharing of `Enum`/`Set`
label lists is collapsed to plain values (it only optimizes cloning). -/
inductive Type' where
  | Args (t : BaseType) (a : List (Nat × Span))
  | Base (t : BaseType)
  | Enum (labels : List String)
  | F32
  | F64
  | I16
  | I32
  | I64
  | I8
  | Invalid
  | JSON
  | Set (labels : List String)
  | U16
  | U32
  | U64
  | U8
  | Null
deriving DecidableEq, Repr

/-- The single-quote character, used by the `Enum`/`Set` renderings. -/
def squote : String := String.singleton (Char.ofNat 39)

/-- The label list rendering used by `Enum`/`Set` in `type_.rs`: labels
single-quoted, separated by a comma and a space, no escaping. -/
def quotedLabels (v : List String) : String :=
  String.intercalate ", " (v.map fun s => squote ++ (s ++ squote))

/-- The `Display` rendering of `Type` from `type_.rs`. -/
def Type'.fmt : Type' → String
  | .Args t a => "args(" ++ (t.fmt ++ (String.join (a.map fun p => ", " ++ toString p.1) ++ ")"))
  | .Base t => t.fmt
  | .Enum v => "enum(" ++ (quotedLabels v ++ ")")
  | .F32 => "f32"
  | .F64 => "f64"
  | .I16 => "i16"
  | .I32 => "i32"
  | .I64 => "i64"
  | .I8 => "i8"
  | .Invalid => "invalid"
  | .JSON => "json"
  | .Set v => "set(" ++ (quotedLabels v ++ ")")
  | .U16 => "u16"
  | .U32 => "u32"
  | .U64 => "u64"
  | .U8 => "u8"
  | .Null => "null"

/-- `Type::base` from `type_.rs`. -/
def Type'.base : Type' → BaseType
  | .Args t _ => t
  | .Base t => t
  | .Enum _ => .String
  | .F32 => .Float
  | .F64 => .Float
  | .I16 => .Integer
  | .I32 => .Integer
  | .I64 => .Integer
  | .I8 => .Integer
  | .Invalid => .Any
  | .JSON => .Any
  | .Null => .Any
  | .Set _ => .String
  | .U16 => .Integer
  | .U32 => .Integer
  | .U64 => .Integer
  | .U8 => .Integer

/-- `FullType` from `type_.rs`: a type together with a not-null guarantee. -/
structure FullType where
  t : Type'
  not_null : Bool
deriving DecidableEq, Repr

/-- `FullType::invalid` from `type_.rs`. -/
def FullType.invalid : FullType := ⟨.Invalid, false⟩

/-- The `Display` rendering of `FullType` from `type_.rs`: the inner type's
text, followed by `" not null"` iff `not_null` is true. -/
def FullType.fmt (f : FullType) : String :=
  f.t.fmt ++ (if f.not_null then " not null" else "")

/-- Diagnostic severity of `sql_parse::Issue`. -/
inductive IssueLevel where
  | error
  | warning
deriving DecidableEq, Repr

/-- A diagnostic, as in `sql_parse::Issue`: severity, message, primary
location and a list of (label, location) context fragments. -/
structure Issue where
  level : IssueLevel
  message : String
  span : Span
  frags : List (String × Span)
deriving DecidableEq, Repr

/-- `Issue::err`. -/
def Issue.err (m : String) (s : Span) : Issue := ⟨.error, m, s, []⟩

/-- `Issue::warn`. -/
def Issue.warn (m : String) (s : Span) : Issue := ⟨.warning, m, s, []⟩

/-- `Issue::frag`: append one context fragment. -/
def Issue.frag (i : Issue) (m : String) (s : Span) : Issue :=
  { i with frags := i.frags ++ [(m, s)] }

/-- Modelled from the spec: the `issue_todo!` unimplemented-construct marker
diagnostic of `sql_parse` (its exact message is outside the embedded files;
no claim depends on it). -/
def issue_todo (s : Span) : Issue := Issue.err "Not yet implemented" s

/-- `ReferenceType`: an in-scope row source with an optional name, an ordered
list of `(column_name, FullType)` pairs and a source location. -/
structure ReferenceType where
  name : Option String
  columns : List (String × FullType)
  span : Span
deriving DecidableEq, Repr

/-- `sql_parse::IdentifierPart`. -/
inductive IdentifierPart where
  | Name (value : String) (span : Span)
  | Star (span : Span)
deriving DecidableEq, Repr

/-- `sql_parse::Is`: the kinds of `IS` test. -/
inductive IsKind where
  | Null
  | NotNull
  | True
  | NotTrue
  | False
  | NotFalse
  | Unknown
  | NotUnknown
deriving DecidableEq, Repr

/-- The expression-tree nodes of `sql_parse::Expression` handled by the
embedded arms of `type_expression`.  Literal payloads that the typer never
reads are dropped.  A `Subquery` node is embedded by the ordered list of
result-column `FullType`s that the external `type_select` collaborator
returns for it (modelled from the spec at its boundary).  A `Cast` node
carries the concrete `Type` that the external `parse_column` collaborator
resolves its declared target-type syntax to (modelled from the spec).
Expression kinds delegated wholesale to external sibling typers
(`Binary`, `Unary`, `Function`, `Exists`) are not embedded. -/
inductive Expression where
  | Null (span : Span)
  | Bool (span : Span)
  | String (span : Span)
  | Integer (span : Span)
  | Float (span : Span)
  | Identifier (parts : List IdentifierPart) (span : Span)
  | Arg (idx : Nat) (span : Span)
  | Subquery (columns : List FullType) (span : Span)
  | In (lhs : Expression) (rhs : List Expression) (in_span : Span) (span : Span)
  | Is (e : Expression) (kind : IsKind) (span : Span)
  | Invalid (span : Span)
  | Case (span : Span)
  | Cast (expr : Expression) (target : Type') (as_span : Span) (span : Span)
  | Count (expr : Expression) (span : Span)

/-- The source location of an expression node (the span the Rust code uses
when it attaches an issue to the whole expression). -/
def Expression.espan : Expression → Span
  | .Null s => s
  | .Bool s => s
  | .String s => s
  | .Integer s => s
  | .Float s => s
  | .Identifier _ s => s
  | .Arg _ s => s
  | .Subquery _ s => s
  | .In _ _ _ s => s
  | .Is _ _ s => s
  | .Invalid s => s
  | .Case s => s
  | .Cast _ _ _ s => s
  | .Count _ s => s

/-- Modelled from the spec: `Typer::matched_type` / `common_type`, the
external coercion collaborator (`typer.rs` is not among the embedded files).
Per its documented boundary: it returns the unified type when the two types
are compatible and `none` otherwise; `Invalid` and `Any`-based types are
automatically compatible with everything; a right-hand `NULL` is compatible
with a left-hand side that admits null (the documented leniency behind the
not-null forcing in the `IN` arm), and otherwise compatibility requires
equal base types. -/
def matched_type (t1 t2 : FullType) : Option Type' :=
  if t1.t.base = .Any then some t2.t
  else if t2.t.base = .Any then
    if t2.t = Type'.Null ∧ t1.not_null = true then none else some t1.t
  else if t1.t.base = t2.t.base then some t1.t
  else none

/-- The `Expression::Identifier` arm of `type_expression`
(`type_expression.rs` lines 83–157): resolve a 1- or 2-part identifier
against the in-scope reference types, producing the issues pushed and the
resulting `FullType`.  The reference types are read only. -/
def identifier_resolve (refs : List ReferenceType) (parts : List IdentifierPart)
    (sp : Span) : List Issue × FullType :=
  match parts with
  | [part] =>
    match part with
    | .Star v => ([Issue.err "Not supported here" v], FullType.invalid)
    | .Name col cs =>
      -- one pass over all references and their columns, counting matches and
      -- remembering the latest one, as in the Rust `for` loops
      let p := refs.foldl
        (fun acc r => r.columns.foldl
          (fun acc2 c => if c.1 = col then (acc2.1 + 1, some c) else acc2) acc)
        ((0 : Nat), (none : Option (String × FullType)))
      if p.1 > 1 then
        let issue := refs.foldl
          (fun i r => r.columns.foldl
            (fun i2 c => if c.1 = col then i2.frag "Defined here" r.span else i2) i)
          (Issue.err "Ambigious reference" cs)
        ([issue], FullType.invalid)
      else
        match p.2 with
        | none => ([Issue.err "Unknown identifier" sp], FullType.invalid)
        | some c => ([], c.2)
  | [p1, p2] =>
    match p1 with
    | .Star v => ([Issue.err "Not supported here" v], FullType.invalid)
    | .Name tbl _ =>
      match p2 with
      | .Star v => ([Issue.err "Not supported here" v], FullType.invalid)
      | .Name col _ =>
        let t := refs.foldl
          (fun acc r => if r.name = some tbl then
              r.columns.foldl (fun acc2 c => if c.1 = col then some c else acc2) acc
            else acc)
          (none : Option (String × FullType))
        match t with
        | none => ([Issue.err "Unknown identifier" sp], FullType.invalid)
        | some c => ([], c.2)
  | _ => ([Issue.err "Bad identifier length" sp], FullType.invalid)

/-- The narrowing side effect of the `IS NOT NULL` arm of `type_expression`
(`type_expression.rs` lines 217–246): when the operand is an identifier whose
first part is a plain name, mark matching reference-type columns
`not_null = true`. -/
def narrow_not_null (refs : List ReferenceType) (e : Expression) :
    List ReferenceType :=
  match e with
  | .Identifier parts _ =>
    match parts.head? with
    | some (.Name n0 _) =>
      if parts.length = 1 then
        refs.map fun r =>
          { r with columns := r.columns.map fun c =>
              if c.1 = n0 then (c.1, { c.2 with not_null := true }) else c }
      else
        match parts.get? 1 with
        | some (.Name n1 _) =>
          refs.map fun r =>
            if r.name = some n0 then
              { r with columns := r.columns.map fun c =>
                  if c.1 = n1 then (c.1, { c.2 with not_null := true }) else c }
            else r
        | _ => refs
    | _ => refs
  | _ => refs

mutual

/-- `type_expression` from `type_expression.rs`, with the ambient `Typer`
context embedded by explicit state passing: the function receives the
in-scope reference types and returns the (possibly narrowed) reference
types, the ordered list of issues this call pushed to the sink, and the
computed `FullType`. -/
def type_expression (refs : List ReferenceType) (e : Expression)
    (outer_where : Bool) : List ReferenceType × List Issue × FullType :=
  match e with
  | .Null _ => (refs, [], ⟨.Null, false⟩)
  | .Bool _ => (refs, [], ⟨.Base .Bool, true⟩)
  | .String _ => (refs, [], ⟨.Base .String, true⟩)
  | .Integer _ => (refs, [], ⟨.Base .Integer, true⟩)
  | .Float _ => (refs, [], ⟨.Base .Float, true⟩)
  | .Identifier parts sp =>
    (refs, (identifier_resolve refs parts sp).1, (identifier_resolve refs parts sp).2)
  | .Arg idx sp => (refs, [], ⟨.Args .Any [(idx, sp)], false⟩)
  | .Subquery cols sp =>
    match cols with
    | [v] => (refs, [], v)
    | _ => (refs, [Issue.err "Subquery should yield one column" sp], FullType.invalid)
  | .In lhs rhs in_span _ =>
    let L := type_expression refs lhs false
    -- hack from the source: force `not_null = false` on the lhs type purely
    -- for the compatibility checks against the rhs operands
    let R := type_in_rhs L.1 ⟨L.2.2.t, false⟩ lhs.espan in_span rhs
    (R.1, L.2.1 ++ R.2.1, ⟨.Base .Bool, L.2.2.not_null && R.2.2⟩)
  | .Is e k _sp =>
    let L := type_expression refs e false
    match k with
    | .Null =>
      (L.1, L.2.1 ++ (if L.2.2.not_null then [Issue.warn "Cannot be null" e.espan] else []),
        ⟨.Base .Bool, true⟩)
    | .NotNull =>
      ((if outer_where then narrow_not_null L.1 e else L.1),
        L.2.1 ++ (if L.2.2.not_null then [Issue.warn "Cannot be null" e.espan] else []),
        ⟨.Base .Bool, true⟩)
    | _ => (L.1, L.2.1 ++ [issue_todo _sp], FullType.invalid)
  | .Invalid _ => (refs, [], FullType.invalid)
  | .Case sp => (refs, [issue_todo sp], FullType.invalid)
  | .Cast ex target _as_sp _ =>
    let L := type_expression refs ex false
    (L.1, L.2.1, ⟨target, L.2.2.not_null⟩)
  | .Count ex _ =>
    match _h : ex with
    | .Identifier _ _ =>
      -- Modelled from the spec: `resolve_kleene_identifier` (in the external
      -- `type_select.rs`) is invoked here purely for its diagnostic side
      -- effects, with a no-op callback; its diagnostics are outside the
      -- embedded files and are modelled as empty.  It does not change the
      -- reference types, and the COUNT result below ignores it entirely.
      (refs, [], ⟨.Base .Integer, true⟩)
    | other =>
      let L := type_expression refs other false
      (L.1, L.2.1, ⟨.Base .Integer, true⟩)
termination_by (sizeOf e, 0)
decreasing_by all_goals (simp_wf; try subst_vars; omega)

/-- The per-operand step of the rhs loop of the `Expression::In` arm
(`type_expression.rs` lines 174–192): a subquery operand is typed through
the external `type_select` (here: the column list the node carries), with an
error when its column count is not 1, and contributes its first result
column (`FullType::invalid` when it has none); any other operand is typed as
an ordinary expression. -/
def type_in_operand (refs : List ReferenceType) (r : Expression) :
    List ReferenceType × List Issue × FullType :=
  match _h : r with
  | .Subquery cols qs =>
    (refs,
      (if cols.length ≠ 1 then
        [Issue.err ("Subquery in IN should yield one column but gave "
          ++ toString cols.length) qs]
      else []),
      (cols.head?).getD FullType.invalid)
  | other => type_expression refs other false
termination_by (sizeOf r, 1)
decreasing_by all_goals (simp_wf; try subst_vars; omega)

/-- The rhs loop of the `Expression::In` arm of `type_expression`
(`type_expression.rs` lines 173–201): type each rhs operand, check
compatibility with the (not-null-forced) lhs type, and accumulate the
conjunction of the operands' `not_null` flags. -/
def type_in_rhs (refs : List ReferenceType) (lhs_t : FullType)
    (lhs_span in_span : Span) (rhs : List Expression) :
    List ReferenceType × List Issue × Bool :=
  match rhs with
  | [] => (refs, [], true)
  | r :: rest =>
    let S := type_in_operand refs r
    let compat : List Issue :=
      if (matched_type lhs_t S.2.2).isNone then
        [((Issue.err "Incompatible types" in_span).frag (Type'.fmt lhs_t.t) lhs_span).frag
          (FullType.fmt S.2.2) r.espan]
      else []
    let K := type_in_rhs S.1 lhs_t lhs_span in_span rest
    (K.1, S.2.1 ++ compat ++ K.2.1, S.2.2.not_null && K.2.2)
termination_by (sizeOf rhs, 2)
decreasing_by all_goals (simp_wf; try subst_vars; omega)

end

/-- The `FullType` that one rhs operand of an `IN` expression contributes:
the value component of `type_in_operand`. -/
def in_operand_type (refs : List ReferenceType) (r : Expression) : FullType :=
  match r with
  | .Subquery cols _ => (cols.head?).getD FullType.invalid
  | other => (type_expression refs other false).2.2

/-- The constructor tag of a `Type'` value, used to state that the textual
rendering determines the variant. -/
def ctorIdx : Type' → Nat
  | .Args _ _ => 0
  | .Base _ => 1
  | .Enum _ => 2
  | .F32 => 3
  | .F64 => 4
  | .I16 => 5
  | .I32 => 6
  | .I64 => 7
  | .I8 => 8
  | .Invalid => 9
  | .JSON => 10
  | .Set _ => 11
  | .U16 => 12
  | .U32 => 13
  | .U64 => 14
  | .U8 => 15
  | .Null => 16

/-- Recover the constructor tag of a `Type'` value from the character
sequence of its rendering: the three parametrized variants are recognized by
their opening keyword, every other variant renders as one fixed word. -/
def keyOf : List Char → Nat
  | 'a' :: 'r' :: 'g' :: 's' :: '(' :: _ => 0
  | 'e' :: 'n' :: 'u' :: 'm' :: '(' :: _ => 2
  | 's' :: 'e' :: 't' :: '(' :: _ => 11
  | l =>
    if l = "any".data ∨ l = "bool".data ∨ l = "bytes".data ∨ l = "date".data ∨
        l = "datetime".data ∨ l = "float".data ∨ l = "integer".data ∨
        l = "string".data ∨ l = "time".data ∨ l = "timestamp".data then 1
    else if l = "f32".data then 3
    else if l = "f64".data then 4
    else if l = "i16".data then 5
    else if l = "i32".data then 6
    else if l = "i64".data then 7
    else if l = "i8".data then 8
    else if l = "invalid".data then 9
    else if l = "json".data then 10
    else if l = "u16".data then 12
    else if l = "u32".data then 13
    else if l = "u64".data then 14
    else if l = "u8".data then 15
    else if l = "null".data then 16
    else 17

/-! ### Helper lemmas about folds used by identifier resolution -/

theorem getLast?_cons_or {α : Type} (a : α) (l : List α) :
    (a :: l).getLast? = l.getLast?.or (some a) := by
  rw [List.getLast?_cons]
  cases l.getLast? <;> simp [Option.or]

/-- The overwrite fold of the qualified-identifier column scan keeps the last
matching column. -/
theorem col_foldl_last (col : String) (cols : List (String × FullType))
    (acc : Option (String × FullType)) :
    cols.foldl (fun acc2 c => if c.1 = col then some c else acc2) acc
      = ((cols.filter (fun c => c.1 = col)).getLast?).or acc := by
  induction cols generalizing acc with
  | nil => simp
  | cons c cs ih =>
    rw [List.foldl_cons, ih, List.filter_cons]
    by_cases h : c.1 = col
    · simp [h, getLast?_cons_or, Option.or_assoc]
    · simp [h]

/-- The overwrite fold of the qualified-identifier reference scan keeps the
last matching column across all references named by the qualifier. -/
theorem refs_foldl_last (tbl col : String) (refs : List ReferenceType)
    (acc : Option (String × FullType)) :
    refs.foldl
      (fun acc r => if r.name = some tbl then
          r.columns.foldl (fun acc2 c => if c.1 = col then some c else acc2) acc
        else acc) acc
      = (((refs.filter (fun r => r.name = some tbl)).flatMap
          (fun r => r.columns.filter (fun c => c.1 = col))).getLast?).or acc := by
  induction refs generalizing acc with
  | nil => simp
  | cons r rs ih =>
    rw [List.foldl_cons, ih, List.filter_cons]
    by_cases h : r.name = some tbl
    · simp [h, col_foldl_last, List.getLast?_append, Option.or_assoc]
    · simp [h]

/-- The counting fold of the bare-identifier scan over one column list. -/
theorem cnt_col_foldl (col : String) (cols : List (String × FullType))
    (n : Nat) (t : Option (String × FullType)) :
    cols.foldl
      (fun acc2 c => if c.1 = col then (acc2.1 + 1, some c) else acc2) (n, t)
      = (n + (cols.filter (fun c => c.1 = col)).length,
          ((cols.filter (fun c => c.1 = col)).getLast?).or t) := by
  induction cols generalizing n t with
  | nil => simp
  | cons c cs ih =>
    rw [List.foldl_cons, List.filter_cons]
    by_cases h : c.1 = col
    · simp only [h, if_pos rfl]
      rw [ih, Prod.ext_iff]
      simp [getLast?_cons_or, Option.or_assoc]
      omega
    · simp only [h, if_neg h]
      rw [ih]
      simp [h]

/-- The counting fold of the bare-identifier scan over all references:
the count is the number of matching columns across all references, and the
remembered column is the last match. -/
theorem cnt_refs_foldl (col : String) (refs : List ReferenceType)
    (n : Nat) (t : Option (String × FullType)) :
    refs.foldl
      (fun acc r => r.columns.foldl
        (fun acc2 c => if c.1 = col then (acc2.1 + 1, some c) else acc2) acc)
      (n, t)
      = (n + ((refs.flatMap (fun r => r.columns.filter (fun c => c.1 = col))).length),
          ((refs.flatMap (fun r => r.columns.filter (fun c => c.1 = col))).getLast?).or t) := by
  induction refs generalizing n t with
  | nil => simp
  | cons r rs ih =>
    rw [List.foldl_cons, cnt_col_foldl, ih, List.flatMap_cons, Prod.ext_iff]
    simp [List.getLast?_append, Option.or_assoc]
    omega

/-- The fragment-collecting fold of the ambiguous-identifier error over one
column list appends one fragment per matching column. -/
theorem frag_col_foldl (col : String) (cols : List (String × FullType))
    (rsp : Span) (i : Issue) :
    cols.foldl
      (fun i2 c => if c.1 = col then i2.frag "Defined here" rsp else i2) i
      = { i with frags := i.frags
            ++ (cols.filter (fun c => c.1 = col)).map (fun _ => ("Defined here", rsp)) } := by
  induction cols generalizing i with
  | nil => simp
  | cons c cs ih =>
    rw [List.foldl_cons, ih, List.filter_cons]
    by_cases h : c.1 = col
    · simp [h, Issue.frag]
    · simp [h]

/-- The fragment-collecting fold of the ambiguous-identifier error over all
references appends, for every reference, one fragment per matching column. -/
theorem frag_refs_foldl (col : String) (refs : List ReferenceType) (i : Issue) :
    refs.foldl
      (fun i r => r.columns.foldl
        (fun i2 c => if c.1 = col then i2.frag "Defined here" r.span else i2) i) i
      = { i with frags := i.frags
            ++ refs.flatMap (fun r =>
                (r.columns.filter (fun c => c.1 = col)).map
                  (fun _ => ("Defined here", r.span))) } := by
  induction refs generalizing i with
  | nil => simp
  | cons r rs ih =>
    rw [List.foldl_cons, frag_col_foldl, ih, List.flatMap_cons]
    simp


/-! ### The typing pass with `outer_where = false` never changes the
reference types (narrowing is the only mutation, and it is guarded). -/

mutual

theorem type_expression_refs_eq (e : Expression) (refs : List ReferenceType) :
    (type_expression refs e false).1 = refs := by
  cases e with
  | Null s => rw [type_expression.eq_def]
  | Bool s => rw [type_expression.eq_def]
  | String s => rw [type_expression.eq_def]
  | Integer s => rw [type_expression.eq_def]
  | Float s => rw [type_expression.eq_def]
  | Identifier parts sp => rw [type_expression.eq_def]
  | Arg idx sp => rw [type_expression.eq_def]
  | Subquery cols sp =>
    rw [type_expression.eq_def]
    cases cols with
    | nil => rfl
    | cons a l => cases l <;> rfl
  | In lhs rhs isp sp =>
    have h1 := type_expression_refs_eq lhs refs
    have h2 := type_in_rhs_refs_eq rhs (type_expression refs lhs false).1
      ⟨(type_expression refs lhs false).2.2.t, false⟩ lhs.espan isp
    rw [type_expression.eq_def]
    dsimp only
    rw [h2, h1]
  | Is e k sp =>
    have h1 := type_expression_refs_eq e refs
    rw [type_expression.eq_def]
    cases k <;> simp [h1]
  | Invalid s => rw [type_expression.eq_def]
  | Case s => rw [type_expression.eq_def]
  | Cast ex target asp sp =>
    have h1 := type_expression_refs_eq ex refs
    rw [type_expression.eq_def]
    dsimp only
    rw [h1]
  | Count ex sp =>
    have h1 := type_expression_refs_eq ex refs
    rw [type_expression.eq_def]
    dsimp only
    split
    · rfl
    · exact h1
termination_by (sizeOf e, 0)
decreasing_by all_goals (simp_wf; try subst_vars; omega)

theorem type_in_operand_refs_eq (r : Expression) (refs : List ReferenceType) :
    (type_in_operand refs r).1 = refs := by
  rw [type_in_operand.eq_def]
  split
  · rfl
  · exact type_expression_refs_eq r refs
termination_by (sizeOf r, 1)
decreasing_by all_goals (simp_wf; try subst_vars; omega)

theorem type_in_rhs_refs_eq (rhs : List Expression) (refs : List ReferenceType)
    (lt : FullType) (ls isp : Span) :
    (type_in_rhs refs lt ls isp rhs).1 = refs := by
  cases rhs with
  | nil => rw [type_in_rhs.eq_def]
  | cons r rest =>
    rw [type_in_rhs.eq_def]
    dsimp only
    rw [type_in_rhs_refs_eq rest (type_in_operand refs r).1 lt ls isp,
      type_in_operand_refs_eq r refs]
termination_by (sizeOf rhs, 2)
decreasing_by all_goals (simp_wf; try subst_vars; omega)

end

/-- The value component of the per-operand step is `in_operand_type`. -/
theorem type_in_operand_val (refs : List ReferenceType) (r : Expression) :
    (type_in_operand refs r).2.2 = in_operand_type refs r := by
  cases r <;> rw [type_in_operand.eq_def] <;> rfl

/-- The accumulated `not_null` flag of the rhs loop is the conjunction of the
operands' `not_null` flags, each operand typed against the initial reference
types (which the loop never changes). -/
theorem type_in_rhs_not_null (rhs : List Expression) (refs : List ReferenceType)
    (lt : FullType) (ls isp : Span) :
    (type_in_rhs refs lt ls isp rhs).2.2
      = rhs.all (fun r => (in_operand_type refs r).not_null) := by
  induction rhs with
  | nil => rw [type_in_rhs.eq_def]; rfl
  | cons r rest ih =>
    rw [type_in_rhs.eq_def]
    dsimp only
    rw [type_in_operand_refs_eq r refs, type_in_operand_val refs r, ih, List.all_cons]

/-- Modelled coercion boundary: a right-hand `NULL` is always compatible with
a left-hand side whose `not_null` was forced to `false`. -/
theorem matched_type_null_rhs (t : Type') :
    (matched_type ⟨t, false⟩ ⟨.Null, false⟩).isNone = false := by
  unfold matched_type
  split
  · rfl
  · split
    · split
      · next h => simp at h
      · rfl
    · next h => exact absurd rfl h

/-! ### Claim theorems -/

/-- C7: `Type::base` is a total function that never fails on any `Type`
variant and returns the documented `BaseType` for each: `Args(b, _) ↦ b`,
`Base(b) ↦ b`, `Enum` and `Set ↦ String`, `F32` and `F64 ↦ Float`,
`I8/I16/I32/I64/U8/U16/U32/U64 ↦ Integer`, and `JSON`, `Null`, `Invalid ↦
Any` (totality is inherent in the function being defined on all of
`Type'`). -/
theorem C7_base_total :
    (∀ (b : BaseType) (a : List (Nat × Span)), (Type'.Args b a).base = b) ∧
    (∀ b : BaseType, (Type'.Base b).base = b) ∧
    (∀ l, (Type'.Enum l).base = BaseType.String) ∧
    (∀ l, (Type'.Set l).base = BaseType.String) ∧
    Type'.F32.base = BaseType.Float ∧ Type'.F64.base = BaseType.Float ∧
    Type'.I8.base = BaseType.Integer ∧ Type'.I16.base = BaseType.Integer ∧
    Type'.I32.base = BaseType.Integer ∧ Type'.I64.base = BaseType.Integer ∧
    Type'.U8.base = BaseType.Integer ∧ Type'.U16.base = BaseType.Integer ∧
    Type'.U32.base = BaseType.Integer ∧ Type'.U64.base = BaseType.Integer ∧
    Type'.JSON.base = BaseType.Any ∧ Type'.Null.base = BaseType.Any ∧
    Type'.Invalid.base = BaseType.Any :=
  ⟨fun _ _ => rfl, fun _ => rfl, fun _ => rfl, fun _ => rfl, rfl, rfl, rfl, rfl,
    rfl, rfl, rfl, rfl, rfl, rfl, rfl, rfl, rfl⟩

/-- C8: the `Display` renderings: `Args(Integer, [(0, _)])` renders as
`"args(integer, 0)"` for any span; `Enum(["a", "b"])` renders as
`"enum('a', 'b')"`; `FullType{Base(Bool), not_null=true}` renders as
`"bool not null"`; `FullType{Null, not_null=false}` renders as `"null"`;
and in general a `FullType` renders as its inner type's text followed by
`" not null"` iff `not_null` is true and nothing otherwise. -/
theorem C8_display :
    (∀ s : Span, (Type'.Args .Integer [(0, s)]).fmt = "args(integer, 0)") ∧
    (Type'.Enum ["a", "b"]).fmt = "enum('a', 'b')" ∧
    (FullType.mk (.Base .Bool) true).fmt = "bool not null" ∧
    (FullType.mk .Null false).fmt = "null" ∧
    (∀ (t : Type') (nn : Bool),
      (FullType.mk t nn).fmt = t.fmt ++ (if nn then " not null" else "")) := by
  refine ⟨fun s => ?_, by decide, by decide, by decide, fun _ _ => rfl⟩
  have h : (Type'.Args BaseType.Integer [(0, s)]).fmt
      = (Type'.Args BaseType.Integer [(0, ⟨0, 0⟩)]).fmt := rfl
  rw [h]
  decide

/-- C5: a `COUNT` expression always has result `(Integer, not_null=true)`,
whatever the argument is (a column identifier resolved through the
star-aware resolver, or any other expression typed only for its side
effects), whatever the scope and the `outer_where` flag are. -/
theorem C5_count_integer_not_null (refs : List ReferenceType) (ex : Expression)
    (sp : Span) (ow : Bool) :
    (type_expression refs (.Count ex sp) ow).2.2 = ⟨.Base .Integer, true⟩ := by
  rw [type_expression.eq_def]
  dsimp only
  split <;> rfl

/-- C6: a `CAST` expression yields the `Type` that the schema column parser
resolved the declared target-type syntax to (carried on the node), with the
operand's computed `not_null`; no issue is pushed by the cast arm itself, so
no legality check between source and target type happens. -/
theorem C6_cast_target_type (refs : List ReferenceType) (ex : Expression)
    (target : Type') (asp sp : Span) (ow : Bool) :
    type_expression refs (.Cast ex target asp sp) ow
      = ((type_expression refs ex false).1, (type_expression refs ex false).2.1,
          ⟨target, (type_expression refs ex false).2.2.not_null⟩) := by
  rw [type_expression.eq_def]

/-- C1: for an `IS NOT NULL` expression whose operand is a 1-part identifier,
typing with `outer_where = true` marks `not_null = true` on every column
whose name matches the identifier in every in-scope reference type; for a
2-part identifier it marks every matching column of every reference whose
name equals the qualifier; and typing the same expression with
`outer_where = false` leaves the reference types unchanged. -/
theorem C1_is_not_null_narrowing :
    (∀ (refs : List ReferenceType) (n : String) (s sp sp2 : Span),
      (type_expression refs (.Is (.Identifier [.Name n s] sp) .NotNull sp2) true).1
        = refs.map fun r =>
            { r with columns := r.columns.map fun c =>
                if c.1 = n then (c.1, { c.2 with not_null := true }) else c }) ∧
    (∀ (refs : List ReferenceType) (q n : String) (s1 s2 sp sp2 : Span),
      (type_expression refs (.Is (.Identifier [.Name q s1, .Name n s2] sp) .NotNull sp2) true).1
        = refs.map fun r =>
            if r.name = some q then
              { r with columns := r.columns.map fun c =>
                  if c.1 = n then (c.1, { c.2 with not_null := true }) else c }
            else r) ∧
    (∀ (refs : List ReferenceType) (parts : List IdentifierPart) (sp sp2 : Span),
      (type_expression refs (.Is (.Identifier parts sp) .NotNull sp2) false).1 = refs) := by
  refine ⟨fun refs n s sp sp2 => ?_, fun refs q n s1 s2 sp sp2 => ?_,
    fun refs parts sp sp2 => ?_⟩
  · rw [type_expression.eq_def]
    simp only [type_expression_refs_eq]
    simp [narrow_not_null]
  · rw [type_expression.eq_def]
    simp only [type_expression_refs_eq]
    simp [narrow_not_null]
  · rw [type_expression.eq_def]
    simp only [type_expression_refs_eq]
    simp

/-- C2 (amended): for a 2-part identifier `qualifier.name`, `type_expression`
scans only the references whose name equals the qualifier and returns the
`FullType` of the **last** column across those references whose name equals
`name` (earlier same-named columns are silently shadowed, because the scan
overwrites its candidate without breaking); if no column matches it falls
through to the "Unknown identifier" error with result `Invalid`.  The
reference types are left unchanged in either case. -/
theorem C2_qualified_identifier_last_match (refs : List ReferenceType)
    (tbl col : String) (ts cs sp : Span) (ow : Bool) :
    type_expression refs (.Identifier [.Name tbl ts, .Name col cs] sp) ow
      = (refs,
          match ((refs.filter (fun r => r.name = some tbl)).flatMap
              (fun r => r.columns.filter (fun c => c.1 = col))).getLast? with
          | some c => (([] : List Issue), c.2)
          | none => ([Issue.err "Unknown identifier" sp], FullType.invalid)) := by
  rw [type_expression.eq_def]
  dsimp only
  unfold identifier_resolve
  dsimp only
  rw [refs_foldl_last, Option.or_none]
  cases h : ((refs.filter (fun r => r.name = some tbl)).flatMap
      (fun r => r.columns.filter (fun c => c.1 = col))).getLast? <;> simp [h]

/-- C2 (counterexample): with one reference `t` whose column list contains
`a : integer not null` followed by `a : string`, the claim's "first column
wins" rule would give the integer column, but `type_expression` returns the
string column: the last match wins. -/
theorem C2_counterexample :
    ((type_expression
        [⟨some "t", [("a", ⟨.Base .Integer, true⟩), ("a", ⟨.Base .String, false⟩)], ⟨1, 1⟩⟩]
        (.Identifier [.Name "t" ⟨2, 3⟩, .Name "a" ⟨4, 5⟩] ⟨2, 5⟩) false).2.2
        = ⟨.Base .String, false⟩)
    ∧ ((⟨.Base .String, false⟩ : FullType) ≠ ⟨.Base .Integer, true⟩) := by
  constructor
  · rw [type_expression.eq_def]
    decide
  · decide

/-- C3 (amended): for a 1-part identifier, `type_expression` counts matching
columns across all in-scope reference types: 0 matches gives the error
"Unknown identifier" and `Invalid`; exactly 1 match gives that column's
`FullType`; 2 or more matches give one error whose message is the
misspelled "Ambigious reference", carrying one context fragment per
**matching column occurrence** (a reference defining the column twice
contributes two fragments), and `Invalid`. -/
theorem C3_bare_identifier_resolution (refs : List ReferenceType)
    (col : String) (cs sp : Span) (ow : Bool) :
    type_expression refs (.Identifier [.Name col cs] sp) ow
      = (refs,
          match refs.flatMap (fun r => r.columns.filter (fun c => c.1 = col)) with
          | [] => ([Issue.err "Unknown identifier" sp], FullType.invalid)
          | [c] => (([] : List Issue), c.2)
          | _ => ([⟨.error, "Ambigious reference", cs,
                    refs.flatMap (fun r =>
                      (r.columns.filter (fun c => c.1 = col)).map
                        (fun _ => ("Defined here", r.span)))⟩],
                  FullType.invalid)) := by
  rw [type_expression.eq_def]
  dsimp only
  unfold identifier_resolve
  dsimp only
  rw [cnt_refs_foldl, frag_refs_foldl]
  cases h : refs.flatMap (fun r => r.columns.filter (fun c => c.1 = col)) with
  | nil => simp [h]
  | cons c l =>
    cases l with
    | nil => simp [h, getLast?_cons_or]
    | cons c2 m =>
      have hgt : ((0 : Nat) + ((c :: c2 :: m).length),
          ((c :: c2 :: m).getLast?).or none).1 > 1 := by
        simp only [List.length_cons]
        omega
      rw [if_pos hgt]
      simp [Issue.err]

/-- C3 (counterexample): with a reference defining `id` twice and another
reference defining `id` once, the claim predicts one error "Ambiguous
reference" with exactly one fragment per defining reference (two fragments);
the code instead emits the misspelled message "Ambigious reference" and one
fragment per matching column occurrence (three fragments). -/
theorem C3_counterexample :
    ((type_expression
        [⟨some "r1", [("id", ⟨.Base .Integer, true⟩), ("id", ⟨.Base .Integer, true⟩)], ⟨1, 1⟩⟩,
          ⟨none, [("id", ⟨.Base .Integer, true⟩)], ⟨2, 2⟩⟩]
        (.Identifier [.Name "id" ⟨5, 6⟩] ⟨5, 6⟩) false).2
        = ([⟨.error, "Ambigious reference", ⟨5, 6⟩,
              [("Defined here", ⟨1, 1⟩), ("Defined here", ⟨1, 1⟩), ("Defined here", ⟨2, 2⟩)]⟩],
            FullType.invalid))
    ∧ "Ambigious reference" ≠ "Ambiguous reference"
    ∧ [("Defined here", (⟨1, 1⟩ : Span)), ("Defined here", ⟨1, 1⟩),
        ("Defined here", ⟨2, 2⟩)].length ≠ 2 := by
  refine ⟨?_, by decide, by decide⟩
  rw [type_expression.eq_def]
  decide

/-- C4: an `IN` expression yields `(Base(Bool), n)` where `n` is the
conjunction of the lhs's computed `not_null` with every rhs operand's
`not_null` (each operand typed against the initial reference types, a
subquery operand contributing its first result column); and because the
lhs's `not_null` is forced to `false` before each common-type compatibility
check, `x IN (NULL)` yields `(Bool, not_null=false)` with zero diagnostics
beyond those of typing `x` itself — in particular, zero "Incompatible
types" diagnostics — whatever the lhs is. -/
theorem C4_in_not_null_conjunction :
    (∀ (refs : List ReferenceType) (lhs : Expression) (rhs : List Expression)
        (isp sp : Span) (ow : Bool),
      (type_expression refs (.In lhs rhs isp sp) ow).2.2
        = ⟨.Base .Bool, (type_expression refs lhs false).2.2.not_null
            && rhs.all (fun r => (in_operand_type refs r).not_null)⟩) ∧
    (∀ (refs : List ReferenceType) (lhs : Expression) (ns isp sp : Span) (ow : Bool),
      type_expression refs (.In lhs [.Null ns] isp sp) ow
        = ((type_expression refs lhs false).1, (type_expression refs lhs false).2.1,
            ⟨.Base .Bool, false⟩)) := by
  constructor
  · intro refs lhs rhs isp sp ow
    rw [type_expression.eq_def]
    dsimp only
    rw [type_expression_refs_eq, type_in_rhs_not_null]
  · intro refs lhs ns isp sp ow
    rw [type_expression.eq_def]
    dsimp only
    rw [type_expression_refs_eq]
    rw [type_in_rhs.eq_def]
    dsimp only
    rw [type_in_operand.eq_def]
    dsimp only
    rw [type_expression.eq_def]
    dsimp only
    rw [type_in_rhs.eq_def]
    simp [matched_type_null_rhs, type_expression_refs_eq]

/-- C10: for an `IN` expression whose rhs operand is a subquery yielding
`n ≠ 1` result columns, `type_expression` pushes the error "Subquery in IN
should yield one column but gave {n}" and still proceeds: the operand
contributes its first result column when `n ≥ 1` and `(Invalid,
not_null=false)` when `n = 0`, and that contribution feeds both the
nullability accumulation and the common-type compatibility check against
the (not-null-forced) lhs type. -/
theorem C10_in_subquery_column_count (refs : List ReferenceType)
    (lhs : Expression) (cols : List FullType) (qs isp sp : Span) (ow : Bool)
    (h : cols.length ≠ 1) :
    type_expression refs (.In lhs [.Subquery cols qs] isp sp) ow
      = ((type_expression refs lhs false).1,
          (type_expression refs lhs false).2.1
            ++ ([Issue.err ("Subquery in IN should yield one column but gave "
                  ++ toString cols.length) qs]
              ++ (if (matched_type ⟨(type_expression refs lhs false).2.2.t, false⟩
                      ((cols.head?).getD FullType.invalid)).isNone then
                    [((Issue.err "Incompatible types" isp).frag
                        (Type'.fmt (type_expression refs lhs false).2.2.t) lhs.espan).frag
                      (FullType.fmt ((cols.head?).getD FullType.invalid)) qs]
                  else [])),
          ⟨.Base .Bool, (type_expression refs lhs false).2.2.not_null
              && ((cols.head?).getD FullType.invalid).not_null⟩) := by
  rw [type_expression.eq_def]
  dsimp only
  rw [type_expression_refs_eq]
  rw [type_in_rhs.eq_def]
  dsimp only
  rw [type_in_operand.eq_def]
  dsimp only
  rw [if_pos h]
  rw [type_in_rhs.eq_def]
  simp [Expression.espan]

/-- C10 (witness): a concrete zero-column subquery on the right of `NULL IN
(...)`: the error message quotes 0 and the contribution is `Invalid`, which
is compatible with everything, so no "Incompatible types" issue follows. -/
theorem C10_witness :
    ([] : List FullType).length ≠ 1 ∧
    type_expression [] (.In (.Null ⟨0, 0⟩) [.Subquery [] ⟨1, 2⟩] ⟨3, 4⟩ ⟨0, 5⟩) false
      = ([], [Issue.err "Subquery in IN should yield one column but gave 0" ⟨1, 2⟩],
          ⟨.Base .Bool, false⟩) := by
  constructor
  · decide
  · rw [C10_in_subquery_column_count [] (.Null ⟨0, 0⟩) [] ⟨1, 2⟩ ⟨3, 4⟩ ⟨0, 5⟩ false
      (by decide)]
    rw [type_expression.eq_def]
    decide

/-- The character sequence of a rendered `Type'` determines its constructor:
`keyOf` recovers the constructor tag from the rendering. -/
theorem key_fmt (t : Type') : keyOf (Type'.fmt t).data = ctorIdx t := by
  cases t with
  | Args b a =>
    have hd : (Type'.fmt (.Args b a)).data
        = 'a' :: 'r' :: 'g' :: 's' :: '(' ::
            (BaseType.fmt b ++ (String.join (a.map fun p => ", " ++ toString p.1) ++ ")")).data := by
      rw [Type'.fmt, String.data_append]
      rfl
    rw [hd]
    simp [keyOf, ctorIdx]
  | Base b => cases b <;> decide
  | Enum v =>
    have hd : (Type'.fmt (.Enum v)).data
        = 'e' :: 'n' :: 'u' :: 'm' :: '(' :: (quotedLabels v ++ ")").data := by
      rw [Type'.fmt, String.data_append]
      rfl
    rw [hd]
    simp [keyOf, ctorIdx]
  | Set v =>
    have hd : (Type'.fmt (.Set v)).data
        = 's' :: 'e' :: 't' :: '(' :: (quotedLabels v ++ ")").data := by
      rw [Type'.fmt, String.data_append]
      rfl
    rw [hd]
    simp [keyOf, ctorIdx]
  | F32 => decide
  | F64 => decide
  | I16 => decide
  | I32 => decide
  | I64 => decide
  | I8 => decide
  | Invalid => decide
  | JSON => decide
  | U16 => decide
  | U32 => decide
  | U64 => decide
  | U8 => decide
  | Null => decide

/-- C9 (amended): the `Display` rendering of `Type` identifies the variant:
no two `Type` values of distinct variants render identically.  Within a
variant the rendering does **not** always identify the parameters: `Args`
renders only the indices of its positions, not their source spans, so two
`Args` values differing only in spans render identically (and `Enum`/`Set`
labels are written unescaped, a further source of collisions). -/
theorem C9_display_identifies_variant (t1 t2 : Type')
    (h : ctorIdx t1 ≠ ctorIdx t2) : Type'.fmt t1 ≠ Type'.fmt t2 := by
  intro heq
  apply h
  rw [← key_fmt t1, ← key_fmt t2, heq]

/-- C9 (witness): the `Invalid` and `Null` variants have distinct tags and
distinct renderings. -/
theorem C9_witness :
    ctorIdx Type'.Invalid ≠ ctorIdx Type'.Null
    ∧ Type'.fmt Type'.Invalid ≠ Type'.fmt Type'.Null :=
  ⟨by decide, C9_display_identifies_variant Type'.Invalid Type'.Null (by decide)⟩

/-- C9 (counterexample): two distinct `Args` values — same variant, distinct
parameters (their spans differ) — render identically, so the rendering does
not always identify the parameters. -/
theorem C9_counterexample :
    Type'.fmt (.Args .Integer [(0, ⟨0, 0⟩)]) = Type'.fmt (.Args .Integer [(0, ⟨1, 2⟩)])
    ∧ (Type'.Args .Integer [(0, ⟨0, 0⟩)] : Type') ≠ .Args .Integer [(0, ⟨1, 2⟩)] :=
  ⟨by decide, by decide⟩
